import Mathlib

/-!
Verification development for `distutils/cygwinccompiler.py`.

The Python module is embedded shallowly:

* `get_msvcr` parses `sys.version` with the regular expression
  `MSC v.` followed by a captured group of four digits, and looks the
  parsed integer up in a `RangeMap.left` table; the version string is
  passed explicitly here.
* Python exceptions become explicit outcome types (`Except`, dedicated
  inductives).
* Methods that only emit warnings and delegate are embedded as functions
  returning the trace of their observable effects.
* Subprocess execution and the file system are passed in as explicit
  environment parameters.
* Python `bytes` values are modelled as `List Char` over ASCII.
-/

/-- Value of a decimal digit character, as in Python `int()` on a digit. -/
def digitVal (c : Char) : Nat := c.toNat - 48

/-- The decimal digit character for `n % 10`. -/
def digitChar (n : Nat) : Char :=
  match n % 10 with
  | 0 => '0'
  | 1 => '1'
  | 2 => '2'
  | 3 => '3'
  | 4 => '4'
  | 5 => '5'
  | 6 => '6'
  | 7 => '7'
  | 8 => '8'
  | _ => '9'

/-- Zero-padded four-digit decimal rendering of `v` (for `v < 10000`), the
form matched by the pattern `MSC v.` followed by four digits. -/
def fourDigits (v : Nat) : List Char :=
  [digitChar (v / 1000), digitChar (v / 100), digitChar (v / 10), digitChar v]

/-- One attempt of the regex `MSC v.` plus a captured group of four digits
at the head of the character list: succeeds when the list starts with the
literal marker followed by four decimal digits, returning the captured
group as an integer (Python `int(match.group(1))`). -/
def mscVerAt : List Char → Option Nat
  | 'M' :: 'S' :: 'C' :: ' ' :: 'v' :: '.' :: d1 :: d2 :: d3 :: d4 :: _ =>
    if d1.isDigit && d2.isDigit && d3.isDigit && d4.isDigit then
      some (1000 * digitVal d1 + 100 * digitVal d2 + 10 * digitVal d3 + digitVal d4)
    else Option.none
  | _ => Option.none

/-- Python `re.search` for the pattern `MSC v.` plus four digits: the
leftmost match in the character list, or `none` when the pattern does not
occur anywhere. -/
def mscVerSearch : List Char → Option Nat
  | [] => Option.none
  | c :: cs =>
    match mscVerAt (c :: cs) with
    | some v => some v
    | Option.none => mscVerSearch cs

/-- The literal lookup table from the source, in source order; the final
boundary 2000 carries `RangeMap.undefined_value`, modelled as `Option.none`. -/
def _msvcr_lookup : List (Nat × Option (List String)) :=
  [(1300, some ["msvcr70"]),
   (1310, some ["msvcr71"]),
   (1400, some ["msvcr80"]),
   (1500, some ["msvcr90"]),
   (1600, some ["msvcr100"]),
   (1700, some ["msvcr110"]),
   (1800, some ["msvcr120"]),
   (1900, some ["vcruntime140"]),
   (2000, Option.none)]

/-- Modelled from the spec: `RangeMap.left` from `distutils/_collections.py`
is part of this repository but absent from `src/`.  Per the spec, the table
is a set of "half-open integer ranges with ascending boundaries", realised
as "an ordered list of (lower-bound, value) pairs searched via the greatest
lower bound"; an item below every bound, or whose greatest lower bound
carries the undefined sentinel (the final boundary), signals the
unknown-version failure, Python `KeyError`, modelled as `Except.error`. -/
def rangeMapLeftLookup (table : List (Nat × Option (List String))) (item : Nat) :
    Except Nat (List String) :=
  match table.foldl (fun acc p => if p.1 ≤ item then some p else acc) Option.none with
  | Option.none => Except.error item
  | some (k, Option.none) => Except.error k
  | some (_, some libs) => Except.ok libs

/-- Observable outcome of `get_msvcr`: Python `return` with no value,
`return` of a library list, or an uncaught `ValueError` with its message. -/
inductive MsvcrOutcome where
  | noResult : MsvcrOutcome
  | libs : List String → MsvcrOutcome
  | valueError : String → MsvcrOutcome
  deriving DecidableEq, Repr

/-- `get_msvcr` from the source, with `sys.version` passed explicitly:
search the version string for the `MSC v.` pattern; on no match return
nothing (the `AttributeError` branch); otherwise look the integer up in
`_msvcr_lookup`, converting a `KeyError` into the `ValueError` whose
message is built by Python `"Unknown MS Compiler version %s " % msc_ver`. -/
def get_msvcr (sys_version : String) : MsvcrOutcome :=
  match mscVerSearch sys_version.data with
  | Option.none => MsvcrOutcome.noResult
  | some msc_ver =>
    match rangeMapLeftLookup _msvcr_lookup msc_ver with
    | Except.ok libs => MsvcrOutcome.libs libs
    | Except.error _ =>
      MsvcrOutcome.valueError ("Unknown MS Compiler version " ++ Nat.repr msc_ver ++ " ")

/-- A version string containing exactly the pattern `MSC v.` followed by
the four-digit rendering of `v`. -/
def mkSysVersion (v : Nat) : String :=
  String.mk (['M', 'S', 'C', ' ', 'v', '.'] ++ fourDigits v)

/-- The pattern `MSC v.` followed by four decimal digits occurs somewhere
in the character list. -/
def hasMscPattern (l : List Char) : Prop :=
  ∃ pre d1 d2 d3 d4 post,
    d1.isDigit = true ∧ d2.isDigit = true ∧ d3.isDigit = true ∧ d4.isDigit = true ∧
    l = pre ++ ('M' :: 'S' :: 'C' :: ' ' :: 'v' :: '.' :: d1 :: d2 :: d3 :: d4 :: post)

/-- Substring test on character lists (Python `needle in hay`). -/
def substrAux (needle : List Char) : List Char → Bool
  | [] => needle.isEmpty
  | c :: t => needle.isPrefixOf (c :: t) || substrAux needle t

/-- Python `needle in hay` on strings. -/
def strContains (hay needle : String) : Bool := substrAux needle.data hay.data

/-- The fixed module-level warning message `_runtime_library_dirs_msg`. -/
def _runtime_library_dirs_msg : String :=
  "Unable to set runtime library search path on Windows, " ++
    "usually indicated by `runtime_library_dirs` parameter to Extension"

/-- The argument record of `CygwinCCompiler.link`, mirroring the Python
signature (`self` excluded); optional arguments keep their `None` default
as `Option.none`. -/
structure LinkArgs where
  target_desc : String
  objects : List String
  output_filename : String
  output_dir : Option String
  libraries : Option (List String)
  library_dirs : Option (List String)
  runtime_library_dirs : Option (List String)
  export_symbols : Option (List String)
  debug : Nat
  extra_preargs : Option (List String)
  extra_postargs : Option (List String)
  build_temp : Option String
  target_lang : Option String
  deriving DecidableEq, Repr

/-- Observable effects of the link-related methods: a `self.warn(...)`
call, or the delegated `UnixCCompiler.link(...)` call (the Unix compiler
driver is an external collaborator, so only the call is recorded). -/
inductive LinkEffect where
  | warn : String → LinkEffect
  | unixLink : LinkArgs → LinkEffect
  deriving DecidableEq, Repr

/-- Python truthiness of an optional list argument (`None` and `[]` are
both falsy). -/
def truthyOptList (o : Option (List String)) : Bool :=
  match o with
  | Option.none => false
  | some l => !l.isEmpty

/-- Replace only the `export_symbols` argument of a `LinkArgs` record. -/
def withExportSymbols (a : LinkArgs) (es : Option (List String)) : LinkArgs :=
  ⟨a.target_desc, a.objects, a.output_filename, a.output_dir, a.libraries,
   a.library_dirs, a.runtime_library_dirs, es, a.debug,
   a.extra_preargs, a.extra_postargs, a.build_temp, a.target_lang⟩

/-- `CygwinCCompiler.link`: warn when `runtime_library_dirs` is truthy,
then always delegate to `UnixCCompiler.link` with the same arguments
except `export_symbols`, which is replaced by `None` ("we do this in our
def-file").  The result is the trace of effects, in order. -/
def CygwinCCompiler.link (a : LinkArgs) : List LinkEffect :=
  (if truthyOptList a.runtime_library_dirs then [LinkEffect.warn _runtime_library_dirs_msg]
   else []) ++
  [LinkEffect.unixLink (withExportSymbols a Option.none)]

/-- `CygwinCCompiler.runtime_library_dir_option`: warn with the fixed
message and return the empty flag list.  The result is the pair of the
effect trace and the returned value. -/
def CygwinCCompiler.runtime_library_dir_option (dir : String) :
    List LinkEffect × List String :=
  ([LinkEffect.warn _runtime_library_dirs_msg], [])

/-- The arguments of the delegated `UnixCCompiler.link` calls occurring in
an effect trace. -/
def unixLinkCalls (t : List LinkEffect) : List LinkArgs :=
  t.filterMap (fun e =>
    match e with
    | LinkEffect.unixLink a => some a
    | _ => Option.none)

/-- The exception classes raised in this module. -/
inductive DistutilsError where
  | cCompilerError : String → DistutilsError
  | distutilsPlatformError : String → DistutilsError
  deriving DecidableEq, Repr

/-- The attributes of the compiler object read by `Mingw32CCompiler.__init__`
(set by the superclass constructor, which is outside this module). -/
structure Mingw32State where
  cc : String
  cxx : String
  linker_dll : String
  deriving DecidableEq, Repr

/-- Observable effects of `Mingw32CCompiler.__init__`: the superclass
constructor call, the `is_cygwincc(self.cc)` identity check (it runs a
subprocess), and a `set_executables` call with the five command strings. -/
inductive InitEffect where
  | superInit : InitEffect
  | checkCygwin : String → InitEffect
  | setExecutables : String → String → String → String → String → InitEffect
  deriving DecidableEq, Repr

/-- `Mingw32CCompiler.__init__`, with the outcome of `is_cygwincc(self.cc)`
passed as `ccIsCygwin`: call the superclass constructor; if the check
reports cygwin, raise `CCompilerError`; otherwise call `set_executables`
with the five formatted command strings (`shared_option` is the literal
`"-shared"`).  The result is the effect trace paired with the raised
exception, if any. -/
def Mingw32CCompiler.init (st : Mingw32State) (ccIsCygwin : Bool) :
    List InitEffect × Option DistutilsError :=
  if ccIsCygwin then
    ([InitEffect.superInit, InitEffect.checkCygwin st.cc],
     some (DistutilsError.cCompilerError "Cygwin gcc cannot be used with --compiler=mingw32"))
  else
    ([InitEffect.superInit, InitEffect.checkCygwin st.cc,
      InitEffect.setExecutables (st.cc ++ " -O -Wall") (st.cc ++ " -mdll -O -Wall")
        (st.cxx ++ " -O -Wall") st.cc (st.linker_dll ++ " " ++ "-shared")],
     Option.none)

/-- `Mingw32CCompiler.runtime_library_dir_option`: unconditionally raise
`DistutilsPlatformError` with the fixed message. -/
def Mingw32CCompiler.runtime_library_dir_option (dir : String) :
    Except DistutilsError (List String) :=
  Except.error (DistutilsError.distutilsPlatformError _runtime_library_dirs_msg)

/-- Status constant `CONFIG_H_OK`. -/
def CONFIG_H_OK : String := "ok"

/-- Status constant `CONFIG_H_NOTOK`. -/
def CONFIG_H_NOTOK : String := "not ok"

/-- Status constant `CONFIG_H_UNCERTAIN`. -/
def CONFIG_H_UNCERTAIN : String := "uncertain"

/-- The `OSError` data used by `check_config_h`: only `strerror` is read. -/
structure OSErr where
  strerror : String
  deriving DecidableEq, Repr

/-- Environment read by `check_config_h`: the interpreter version string
`sys.version`, the path returned by `sysconfig.get_config_h_filename()`,
and the result of opening and reading that file (`Except.error` is the
`OSError` branch). -/
structure ConfigEnv where
  sys_version : String
  config_h_filename : String
  readConfigH : Except OSErr String
  deriving Repr

/-- `check_config_h` from the source over an explicit environment: `OK`
when `sys.version` mentions GCC or Clang; otherwise read `pyconfig.h` and
return `OK`/`NOTOK` according to whether it mentions `__GNUC__`, or
`UNCERTAIN` with the `OSError`'s `strerror` when the read fails. -/
def check_config_h (env : ConfigEnv) : String × String :=
  if strContains env.sys_version "GCC" then
    (CONFIG_H_OK, "sys.version mentions \x27GCC\x27")
  else if strContains env.sys_version "Clang" then
    (CONFIG_H_OK, "sys.version mentions \x27Clang\x27")
  else
    match env.readConfigH with
    | Except.ok contents =>
      if strContains contents "__GNUC__" then
        (CONFIG_H_OK, "\x27" ++ env.config_h_filename ++ "\x27 mentions \x27__GNUC__\x27")
      else
        (CONFIG_H_NOTOK,
         "\x27" ++ env.config_h_filename ++ "\x27 does not mention \x27__GNUC__\x27")
    | Except.error exc =>
      (CONFIG_H_UNCERTAIN,
       "couldn\x27t read \x27" ++ env.config_h_filename ++ "\x27: " ++ exc.strerror)

/-- ASCII whitespace removed by Python `bytes.strip()`. -/
def isPyWS (c : Char) : Bool :=
  c = ' ' || c = '\t' || c = '\n' || c = '\r' || c = '\x0b' || c = '\x0c'

/-- Python `bytes.strip()`: remove ASCII whitespace from both ends. -/
def bstrip (l : List Char) : List Char :=
  ((l.dropWhile isPyWS).reverse.dropWhile isPyWS).reverse

/-- Modelled `shlex.split` restricted to the quoting-free compiler command
strings used here: whitespace tokenisation (`shlex` is Python standard
library, external to this repository). -/
def shlex_split (s : String) : List String :=
  (s.split (fun c => c = ' ')).filter (fun t => !(t = ""))

/-- `is_cygwincc` with the subprocess modelled as a function `run` from
the argument vector to captured standard output bytes: build the argv
`shlex.split(cc) + ["-dumpmachine"]`, run it via `check_output`, and test
whether the stripped output ends with `b"cygwin"`.  The result is the argv
used together with the returned boolean. -/
def is_cygwincc (run : List String → List Char) (cc : String) :
    List String × Bool :=
  (shlex_split cc ++ ["-dumpmachine"],
   List.isSuffixOf ['c', 'y', 'g', 'w', 'i', 'n']
     (bstrip (run (shlex_split cc ++ ["-dumpmachine"]))))

/-- A concrete argument record whose `runtime_library_dirs` is non-empty. -/
def exampleLinkArgs : LinkArgs :=
  ⟨"shared_library", ["foo.o"], "foo.dll", Option.none, Option.none, Option.none,
   some ["/opt/lib"], Option.none, 0, Option.none, Option.none, Option.none,
   Option.none⟩

/-- A concrete environment whose `sys.version` mentions GCC while the
configuration header is unreadable. -/
def gccEnvUnreadable : ConfigEnv :=
  ⟨"3.12.0 [GCC 13.2.0]", "/usr/include/python3.12/pyconfig.h",
   Except.error ⟨"No such file or directory"⟩⟩

theorem digitChar_isDigit (n : Nat) : (digitChar n).isDigit = true := by
  unfold digitChar
  have h : n % 10 < 10 := Nat.mod_lt _ (by omega)
  set m := n % 10 with hm
  interval_cases m <;> rfl

theorem digitVal_digitChar (n : Nat) : digitVal (digitChar n) = n % 10 := by
  unfold digitChar
  have h : n % 10 < 10 := Nat.mod_lt _ (by omega)
  set m := n % 10 with hm
  interval_cases m <;> rfl

theorem mscVerSearch_mkSysVersion (v : Nat) (h : v < 10000) :
    mscVerSearch (mkSysVersion v).data = some v := by
  show mscVerSearch ('M' :: 'S' :: 'C' :: ' ' :: 'v' :: '.' :: fourDigits v) = some v
  simp only [fourDigits, mscVerSearch, mscVerAt, digitChar_isDigit, Bool.and_self,
    if_true, digitVal_digitChar, Option.some.injEq]
  omega

theorem msvcr_case_1300 (v : Nat) (h1 : 1300 ≤ v) (h2 : v < 1310) :
    get_msvcr (mkSysVersion v) = MsvcrOutcome.libs ["msvcr70"] := by
  have hp := mscVerSearch_mkSysVersion v (by omega)
  simp only [get_msvcr, hp, rangeMapLeftLookup, _msvcr_lookup, List.foldl_cons,
    List.foldl_nil]
  rw [if_neg (by omega : ¬ 2000 ≤ v), if_neg (by omega : ¬ 1900 ≤ v),
    if_neg (by omega : ¬ 1800 ≤ v), if_neg (by omega : ¬ 1700 ≤ v),
    if_neg (by omega : ¬ 1600 ≤ v), if_neg (by omega : ¬ 1500 ≤ v),
    if_neg (by omega : ¬ 1400 ≤ v), if_neg (by omega : ¬ 1310 ≤ v),
    if_pos (by omega : 1300 ≤ v)]

theorem msvcr_case_1310 (v : Nat) (h1 : 1310 ≤ v) (h2 : v < 1400) :
    get_msvcr (mkSysVersion v) = MsvcrOutcome.libs ["msvcr71"] := by
  have hp := mscVerSearch_mkSysVersion v (by omega)
  simp only [get_msvcr, hp, rangeMapLeftLookup, _msvcr_lookup, List.foldl_cons,
    List.foldl_nil]
  rw [if_neg (by omega : ¬ 2000 ≤ v), if_neg (by omega : ¬ 1900 ≤ v),
    if_neg (by omega : ¬ 1800 ≤ v), if_neg (by omega : ¬ 1700 ≤ v),
    if_neg (by omega : ¬ 1600 ≤ v), if_neg (by omega : ¬ 1500 ≤ v),
    if_neg (by omega : ¬ 1400 ≤ v), if_pos (by omega : 1310 ≤ v)]

theorem msvcr_case_1400 (v : Nat) (h1 : 1400 ≤ v) (h2 : v < 1500) :
    get_msvcr (mkSysVersion v) = MsvcrOutcome.libs ["msvcr80"] := by
  have hp := mscVerSearch_mkSysVersion v (by omega)
  simp only [get_msvcr, hp, rangeMapLeftLookup, _msvcr_lookup, List.foldl_cons,
    List.foldl_nil]
  rw [if_neg (by omega : ¬ 2000 ≤ v), if_neg (by omega : ¬ 1900 ≤ v),
    if_neg (by omega : ¬ 1800 ≤ v), if_neg (by omega : ¬ 1700 ≤ v),
    if_neg (by omega : ¬ 1600 ≤ v), if_neg (by omega : ¬ 1500 ≤ v),
    if_pos (by omega : 1400 ≤ v)]

theorem msvcr_case_1500 (v : Nat) (h1 : 1500 ≤ v) (h2 : v < 1600) :
    get_msvcr (mkSysVersion v) = MsvcrOutcome.libs ["msvcr90"] := by
  have hp := mscVerSearch_mkSysVersion v (by omega)
  simp only [get_msvcr, hp, rangeMapLeftLookup, _msvcr_lookup, List.foldl_cons,
    List.foldl_nil]
  rw [if_neg (by omega : ¬ 2000 ≤ v), if_neg (by omega : ¬ 1900 ≤ v),
    if_neg (by omega : ¬ 1800 ≤ v), if_neg (by omega : ¬ 1700 ≤ v),
    if_neg (by omega : ¬ 1600 ≤ v), if_pos (by omega : 1500 ≤ v)]

theorem msvcr_case_1600 (v : Nat) (h1 : 1600 ≤ v) (h2 : v < 1700) :
    get_msvcr (mkSysVersion v) = MsvcrOutcome.libs ["msvcr100"] := by
  have hp := mscVerSearch_mkSysVersion v (by omega)
  simp only [get_msvcr, hp, rangeMapLeftLookup, _msvcr_lookup, List.foldl_cons,
    List.foldl_nil]
  rw [if_neg (by omega : ¬ 2000 ≤ v), if_neg (by omega : ¬ 1900 ≤ v),
    if_neg (by omega : ¬ 1800 ≤ v), if_neg (by omega : ¬ 1700 ≤ v),
    if_pos (by omega : 1600 ≤ v)]

theorem msvcr_case_1700 (v : Nat) (h1 : 1700 ≤ v) (h2 : v < 1800) :
    get_msvcr (mkSysVersion v) = MsvcrOutcome.libs ["msvcr110"] := by
  have hp := mscVerSearch_mkSysVersion v (by omega)
  simp only [get_msvcr, hp, rangeMapLeftLookup, _msvcr_lookup, List.foldl_cons,
    List.foldl_nil]
  rw [if_neg (by omega : ¬ 2000 ≤ v), if_neg (by omega : ¬ 1900 ≤ v),
    if_neg (by omega : ¬ 1800 ≤ v), if_pos (by omega : 1700 ≤ v)]

theorem msvcr_case_1800 (v : Nat) (h1 : 1800 ≤ v) (h2 : v < 1900) :
    get_msvcr (mkSysVersion v) = MsvcrOutcome.libs ["msvcr120"] := by
  have hp := mscVerSearch_mkSysVersion v (by omega)
  simp only [get_msvcr, hp, rangeMapLeftLookup, _msvcr_lookup, List.foldl_cons,
    List.foldl_nil]
  rw [if_neg (by omega : ¬ 2000 ≤ v), if_neg (by omega : ¬ 1900 ≤ v),
    if_pos (by omega : 1800 ≤ v)]

theorem msvcr_case_1900 (v : Nat) (h1 : 1900 ≤ v) (h2 : v < 2000) :
    get_msvcr (mkSysVersion v) = MsvcrOutcome.libs ["vcruntime140"] := by
  have hp := mscVerSearch_mkSysVersion v (by omega)
  simp only [get_msvcr, hp, rangeMapLeftLookup, _msvcr_lookup, List.foldl_cons,
    List.foldl_nil]
  rw [if_neg (by omega : ¬ 2000 ≤ v), if_pos (by omega : 1900 ≤ v)]

/-- Claim C1: for every integer compiler version strictly inside one of the
defined half-open ranges (1300-1309, 1310-1399, ..., 1900-1999),
`get_msvcr` on a version string containing that version under the pattern
`MSC v.` plus four digits returns exactly the list associated with that
range. -/
theorem get_msvcr_defined_ranges (v : Nat) (h1 : 1300 ≤ v) (h2 : v ≤ 1999) :
    get_msvcr (mkSysVersion v) =
      MsvcrOutcome.libs
        (if v < 1310 then ["msvcr70"]
         else if v < 1400 then ["msvcr71"]
         else if v < 1500 then ["msvcr80"]
         else if v < 1600 then ["msvcr90"]
         else if v < 1700 then ["msvcr100"]
         else if v < 1800 then ["msvcr110"]
         else if v < 1900 then ["msvcr120"]
         else ["vcruntime140"]) := by
  by_cases b1 : v < 1310
  · rw [if_pos b1]
    exact msvcr_case_1300 v h1 b1
  · rw [if_neg b1]
    by_cases b2 : v < 1400
    · rw [if_pos b2]
      exact msvcr_case_1310 v (by omega) b2
    · rw [if_neg b2]
      by_cases b3 : v < 1500
      · rw [if_pos b3]
        exact msvcr_case_1400 v (by omega) b3
      · rw [if_neg b3]
        by_cases b4 : v < 1600
        · rw [if_pos b4]
          exact msvcr_case_1500 v (by omega) b4
        · rw [if_neg b4]
          by_cases b5 : v < 1700
          · rw [if_pos b5]
            exact msvcr_case_1600 v (by omega) b5
          · rw [if_neg b5]
            by_cases b6 : v < 1800
            · rw [if_pos b6]
              exact msvcr_case_1700 v (by omega) b6
            · rw [if_neg b6]
              by_cases b7 : v < 1900
              · rw [if_pos b7]
                exact msvcr_case_1800 v (by omega) b7
              · rw [if_neg b7]
                exact msvcr_case_1900 v (by omega) (by omega)

theorem get_msvcr_defined_ranges_witness :
    get_msvcr (mkSysVersion 1955) = MsvcrOutcome.libs ["vcruntime140"] := by
  simpa using get_msvcr_defined_ranges 1955 (by decide) (by decide)

theorem substrAux_true_of_pre (n h : List Char) (hp : n <+: h) :
    substrAux n h = true := by
  cases h with
  | nil =>
    have hn : n = [] := List.prefix_nil.mp hp
    simp [substrAux, hn]
  | cons c t =>
    have hb : n.isPrefixOf (c :: t) = true := List.isPrefixOf_iff_prefix.mpr hp
    simp [substrAux, hb]

theorem substrAux_true_prepend (n pre h : List Char) (hs : substrAux n h = true) :
    substrAux n (pre ++ h) = true := by
  induction pre with
  | nil => simpa using hs
  | cons c t ih => simp [substrAux, List.cons_append, ih]

theorem substrAux_true_middle (n pre post : List Char) :
    substrAux n (pre ++ (n ++ post)) = true :=
  substrAux_true_prepend n pre _ (substrAux_true_of_pre n _ (List.prefix_append n post))

/-- Claim C2: for every parsed four-digit compiler version at or above the
topmost boundary 2000, `get_msvcr` raises the `ValueError` whose message
contains the version number (it neither returns a value nor returns
nothing). -/
theorem get_msvcr_unknown_high (v : Nat) (h1 : 2000 ≤ v) (h2 : v ≤ 9999) :
    get_msvcr (mkSysVersion v) =
      MsvcrOutcome.valueError ("Unknown MS Compiler version " ++ Nat.repr v ++ " ") ∧
    substrAux (Nat.repr v).data
      ("Unknown MS Compiler version " ++ Nat.repr v ++ " ").data = true := by
  constructor
  · have hp := mscVerSearch_mkSysVersion v (by omega)
    simp only [get_msvcr, hp, rangeMapLeftLookup, _msvcr_lookup, List.foldl_cons,
      List.foldl_nil]
    rw [if_pos (by omega : 2000 ≤ v)]
  · rw [String.data_append, String.data_append, List.append_assoc]
    exact substrAux_true_middle _ _ _

theorem get_msvcr_unknown_high_witness :
    get_msvcr (mkSysVersion 2100) =
      MsvcrOutcome.valueError ("Unknown MS Compiler version " ++ Nat.repr 2100 ++ " ") ∧
    substrAux (Nat.repr 2100).data
      ("Unknown MS Compiler version " ++ Nat.repr 2100 ++ " ").data = true :=
  get_msvcr_unknown_high 2100 (by decide) (by decide)


theorem mscVerAt_pattern_some (d1 d2 d3 d4 : Char) (post : List Char)
    (g1 : d1.isDigit = true) (g2 : d2.isDigit = true) (g3 : d3.isDigit = true)
    (g4 : d4.isDigit = true) :
    mscVerAt ('M' :: 'S' :: 'C' :: ' ' :: 'v' :: '.' :: d1 :: d2 :: d3 :: d4 :: post) =
      some (1000 * digitVal d1 + 100 * digitVal d2 + 10 * digitVal d3 + digitVal d4) := by
  simp [mscVerAt, g1, g2, g3, g4]

theorem mscVerSearch_ne_none_of_pattern (l : List Char) (h : hasMscPattern l) :
    ¬ mscVerSearch l = Option.none := by
  obtain ⟨pre, d1, d2, d3, d4, post, g1, g2, g3, g4, rfl⟩ := h
  induction pre with
  | nil =>
    intro hcontra
    simp only [List.nil_append, mscVerSearch,
      mscVerAt_pattern_some d1 d2 d3 d4 post g1 g2 g3 g4] at hcontra
    exact Option.noConfusion hcontra
  | cons c t ih =>
    intro hcontra
    simp only [List.cons_append, mscVerSearch] at hcontra
    split at hcontra
    · exact Option.noConfusion hcontra
    · exact ih hcontra

theorem hasMscPattern_of_search_some (l : List Char) (v : Nat)
    (h : mscVerSearch l = some v) : hasMscPattern l := by
  induction l with
  | nil => simp [mscVerSearch] at h
  | cons c cs ih =>
    rw [mscVerSearch] at h
    cases hAt : mscVerAt (c :: cs) with
    | some w =>
      unfold mscVerAt at hAt
      split at hAt
      · rename_i rest0 d1 d2 d3 d4 rest heq
        split at hAt
        · rename_i hdig
          simp only [Bool.and_eq_true] at hdig
          rw [heq]
          exact ⟨[], d1, d2, d3, d4, rest, hdig.1.1.1, hdig.1.1.2, hdig.1.2, hdig.2, rfl⟩
        · exact Option.noConfusion hAt
      · exact Option.noConfusion hAt
    | none =>
      rw [hAt] at h
      simp at h
      obtain ⟨pre, d1, d2, d3, d4, post, g1, g2, g3, g4, heq⟩ := ih h
      exact ⟨c :: pre, d1, d2, d3, d4, post, g1, g2, g3, g4, by rw [heq]; rfl⟩

/-- Claim C3: for every input version string in which the pattern `MSC v.`
followed by four digits does not occur, `get_msvcr` returns no result and
raises no error. -/
theorem get_msvcr_no_marker (s : String) (h : ¬ hasMscPattern s.data) :
    get_msvcr s = MsvcrOutcome.noResult := by
  cases hq : mscVerSearch s.data with
  | none => simp [get_msvcr, hq]
  | some v => exact absurd (hasMscPattern_of_search_some _ v hq) h

theorem get_msvcr_no_marker_witness :
    ¬ hasMscPattern ("3.13.0 (tags, Oct  7 2024) [GCC 13.2.0]".data) ∧
    get_msvcr "3.13.0 (tags, Oct  7 2024) [GCC 13.2.0]" = MsvcrOutcome.noResult := by
  have hn : ¬ hasMscPattern ("3.13.0 (tags, Oct  7 2024) [GCC 13.2.0]".data) := fun hp =>
    mscVerSearch_ne_none_of_pattern _ hp (by decide)
  exact ⟨hn, get_msvcr_no_marker _ hn⟩

/-- Claim C9 (implicit): `get_msvcr` signals the same unknown-version
`ValueError` for every parsed version strictly below the lowest boundary
1300, and the no-error "no result" outcome occurs only when the version
pattern is entirely absent from the input string. -/
theorem get_msvcr_below_lowest (v : Nat) (s : String) (hv : v ≤ 1299)
    (hs : get_msvcr s = MsvcrOutcome.noResult) :
    get_msvcr (mkSysVersion v) =
      MsvcrOutcome.valueError ("Unknown MS Compiler version " ++ Nat.repr v ++ " ") ∧
    ¬ hasMscPattern s.data := by
  constructor
  · have hp := mscVerSearch_mkSysVersion v (by omega)
    simp only [get_msvcr, hp, rangeMapLeftLookup, _msvcr_lookup, List.foldl_cons,
      List.foldl_nil]
    rw [if_neg (by omega : ¬ 2000 ≤ v), if_neg (by omega : ¬ 1900 ≤ v),
      if_neg (by omega : ¬ 1800 ≤ v), if_neg (by omega : ¬ 1700 ≤ v),
      if_neg (by omega : ¬ 1600 ≤ v), if_neg (by omega : ¬ 1500 ≤ v),
      if_neg (by omega : ¬ 1400 ≤ v), if_neg (by omega : ¬ 1310 ≤ v),
      if_neg (by omega : ¬ 1300 ≤ v)]
  · intro hpat
    cases hq : mscVerSearch s.data with
    | none => exact mscVerSearch_ne_none_of_pattern _ hpat hq
    | some w =>
      simp only [get_msvcr, hq] at hs
      cases hl : rangeMapLeftLookup _msvcr_lookup w <;> simp [hl] at hs

theorem get_msvcr_below_lowest_witness :
    get_msvcr (mkSysVersion 1200) =
      MsvcrOutcome.valueError ("Unknown MS Compiler version " ++ Nat.repr 1200 ++ " ") ∧
    ¬ hasMscPattern ("2.7.18 (v2.7.18, Apr 20 2020)".data) :=
  get_msvcr_below_lowest 1200 "2.7.18 (v2.7.18, Apr 20 2020)" (by decide) (by decide)

/-- Claim C4: when asked to honor runtime-library search directories,
`CygwinCCompiler` emits the fixed warning string and proceeds without
adding linker flags: `link` warns whenever `runtime_library_dirs` is
non-empty and still performs the delegated Unix link, and
`runtime_library_dir_option` warns and returns the empty flag list for
every directory argument. -/
theorem cygwin_runtime_dirs_warn (a : LinkArgs) (d : String)
    (h : truthyOptList a.runtime_library_dirs = true) :
    CygwinCCompiler.link a =
      [LinkEffect.warn _runtime_library_dirs_msg,
       LinkEffect.unixLink (withExportSymbols a Option.none)] ∧
    CygwinCCompiler.runtime_library_dir_option d =
      ([LinkEffect.warn _runtime_library_dirs_msg], []) := by
  refine ⟨?_, rfl⟩
  simp [CygwinCCompiler.link, h]

theorem cygwin_runtime_dirs_warn_witness :
    truthyOptList exampleLinkArgs.runtime_library_dirs = true ∧
    CygwinCCompiler.link exampleLinkArgs =
      [LinkEffect.warn _runtime_library_dirs_msg,
       LinkEffect.unixLink (withExportSymbols exampleLinkArgs Option.none)] ∧
    CygwinCCompiler.runtime_library_dir_option "/opt/lib" =
      ([LinkEffect.warn _runtime_library_dirs_msg], []) :=
  ⟨by decide, cygwin_runtime_dirs_warn exampleLinkArgs "/opt/lib" (by decide)⟩

/-- Claim C5: `Mingw32CCompiler.runtime_library_dir_option` raises
`DistutilsPlatformError` with the fixed runtime-library-dirs message,
unconditionally, for every directory argument. -/
theorem mingw32_runtime_dir_option_raises (d : String) :
    Mingw32CCompiler.runtime_library_dir_option d =
      Except.error (DistutilsError.distutilsPlatformError _runtime_library_dirs_msg) := rfl

/-- Claim C6: constructing `Mingw32CCompiler` when the identity check on
`self.cc` reports the cygwin vendor string raises `CCompilerError`
immediately, after the superclass constructor and the check but before
any executable configuration: the trace contains no `set_executables`
call. -/
theorem mingw32_init_rejects_cygwincc (st : Mingw32State) :
    Mingw32CCompiler.init st true =
      ([InitEffect.superInit, InitEffect.checkCygwin st.cc],
       some (DistutilsError.cCompilerError
         "Cygwin gcc cannot be used with --compiler=mingw32")) := rfl

/-- Claim C10 (implicit): `CygwinCCompiler.link` ignores its
`export_symbols` argument: the effect trace is independent of it, and
every delegated `UnixCCompiler.link` call carries `export_symbols = None`. -/
theorem cygwin_link_ignores_export_symbols (a : LinkArgs)
    (es es2 : Option (List String)) :
    CygwinCCompiler.link (withExportSymbols a es) =
      CygwinCCompiler.link (withExportSymbols a es2) ∧
    (unixLinkCalls (CygwinCCompiler.link a)).map LinkArgs.export_symbols =
      [Option.none] := by
  constructor
  · simp [CygwinCCompiler.link, withExportSymbols]
  · cases h : truthyOptList a.runtime_library_dirs <;>
      simp [CygwinCCompiler.link, h, unixLinkCalls, withExportSymbols]

/-- Claim C7 (amended): when `sys.version` mentions neither GCC nor Clang
and the configuration header cannot be read, `check_config_h` returns the
indeterminate `CONFIG_H_UNCERTAIN` status with a details string that
includes the underlying OS error text (`strerror`). -/
theorem check_config_h_unreadable_uncertain (env : ConfigEnv) (e : OSErr)
    (h1 : strContains env.sys_version "GCC" = false)
    (h2 : strContains env.sys_version "Clang" = false)
    (h3 : env.readConfigH = Except.error e) :
    check_config_h env =
      (CONFIG_H_UNCERTAIN,
       "couldn\x27t read \x27" ++ env.config_h_filename ++ "\x27: " ++ e.strerror) ∧
    substrAux e.strerror.data (check_config_h env).2.data = true := by
  have hmain : check_config_h env =
      (CONFIG_H_UNCERTAIN,
       "couldn\x27t read \x27" ++ env.config_h_filename ++ "\x27: " ++ e.strerror) := by
    simp [check_config_h, h1, h2, h3]
  refine ⟨hmain, ?_⟩
  rw [hmain, String.data_append]
  have hmid := substrAux_true_middle e.strerror.data
    ("couldn\x27t read \x27" ++ env.config_h_filename ++ "\x27: ").data []
  simpa using hmid

theorem check_config_h_unreadable_uncertain_witness :
    strContains "3.12.0 [MSC v.1937 64 bit]" "GCC" = false ∧
    check_config_h
        ⟨"3.12.0 [MSC v.1937 64 bit]", "pyconfig.h",
         Except.error ⟨"No such file or directory"⟩⟩ =
      (CONFIG_H_UNCERTAIN,
       "couldn\x27t read \x27" ++ "pyconfig.h" ++ "\x27: " ++ "No such file or directory") ∧
    substrAux ("No such file or directory".data)
      (check_config_h
        ⟨"3.12.0 [MSC v.1937 64 bit]", "pyconfig.h",
         Except.error ⟨"No such file or directory"⟩⟩).2.data = true := by
  have h := check_config_h_unreadable_uncertain
    ⟨"3.12.0 [MSC v.1937 64 bit]", "pyconfig.h",
     Except.error ⟨"No such file or directory"⟩⟩
    ⟨"No such file or directory"⟩ (by decide) (by decide) rfl
  exact ⟨by decide, h.1, h.2⟩

/-- Claim C7 counterexample: with `sys.version` mentioning GCC while the
configuration header is unreadable, `check_config_h` returns the
`CONFIG_H_OK` status, not the indeterminate `CONFIG_H_UNCERTAIN` one. -/
theorem check_config_h_gcc_overrides_unreadable :
    check_config_h gccEnvUnreadable = (CONFIG_H_OK, "sys.version mentions \x27GCC\x27") ∧
    gccEnvUnreadable.readConfigH = Except.error ⟨"No such file or directory"⟩ ∧
    (CONFIG_H_OK == CONFIG_H_UNCERTAIN) = false :=
  ⟨by decide, rfl, by decide⟩

/-- Claim C8: `is_cygwincc` invokes the configured compiler executable
with the `-dumpmachine` flag, and returns `true` exactly when the captured
standard output, after stripping surrounding whitespace, ends with the
fixed vendor string `b"cygwin"`. -/
theorem is_cygwincc_spec (run : List String → List Char) (cc : String) :
    (is_cygwincc run cc).1 = shlex_split cc ++ ["-dumpmachine"] ∧
    ((is_cygwincc run cc).2 = true ↔
      ['c', 'y', 'g', 'w', 'i', 'n'] <:+
        bstrip (run (shlex_split cc ++ ["-dumpmachine"]))) := by
  constructor
  · rfl
  · show List.isSuffixOf _ _ = true ↔ _
    exact List.isSuffixOf_iff_suffix
